import Mathlib

/-!
A shallow embedding of `src/plugin.js` of puppeteer-extra-plugin-page-proxy:
the plugin constructor, the interception coordinator `onRequest`, and the
per-page `page.useProxy` installer from `onPageCreated`. The dispatcher
`getProxiedResponse` lives in `core/proxy` (not part of this file-set) and
is treated as an oracle outcome passed into the coordinator.
-/

namespace PageProxy

/-- A JavaScript value in a proxy-url position: `undefined`, `null`, or a string. -/
inductive JSVal where
  | undef
  | null
  | str (s : String)
deriving DecidableEq

/-- JavaScript truthiness for `JSVal`: `undefined`, `null` and the empty string are falsy. -/
def JSVal.truthy : JSVal → Bool
  | .undef => false
  | .null => false
  | .str s => !s.isEmpty

/-- Truthiness of a JavaScript `number | undefined` value: `undefined` and `0` are falsy. -/
def truthyNum : Option Int → Bool
  | none => false
  | some n => n != 0

/-- Truthiness of a JavaScript `boolean | undefined` value. -/
def truthyBool : Option Bool → Bool
  | none => false
  | some b => b

/-- The JavaScript `||` operator on `number | undefined` values, as used on
line 125 for `interceptResolutionPriority`. -/
def jsOrNum (a b : Option Int) : Option Int := if truthyNum a then a else b

/-- The JavaScript `||` operator on `boolean | undefined` values, as used on
line 126 for `onlyNavigation`. -/
def jsOrBool (a b : Option Bool) : Option Bool := if truthyBool a then a else b

/-- The JavaScript `||` operator on url values, as used on line 133 for
`localProxyUrl || this.proxyUrl`. -/
def JSVal.jsOr (a b : JSVal) : JSVal := if a.truthy then a else b

/-- The option object held in `this.opts` after construction: `proxyUrl`,
`onlyNavigation` and `interceptResolutionPriority` (the `defaults` getter
makes all three `undefined` when not supplied). The same shape serves for an
object passed as the first constructor argument. Read through the `proxyUrl`,
`onlyNavigation` and `interceptResolutionPriority` getters. -/
structure PluginOpts where
  proxyUrl : JSVal
  onlyNavigation : Option Bool
  interceptResolutionPriority : Option Int
deriving DecidableEq

/-- The first constructor argument: either a string proxy url, or a
non-string object whose fields are spread into the options. -/
inductive CtorArg1 where
  | strArg (s : String)
  | objArg (o : PluginOpts)
deriving DecidableEq

/-- Lines 46-48 of the constructor:
`super(typeof proxyUrl === "string" ? { ...opts, proxyUrl } : { ...proxyUrl })`.
When the first argument is a string the second argument is spread and its
`proxyUrl` field (if any) is overwritten by the string; otherwise the first
argument is spread alone and the second argument is ignored. -/
def mkPluginOpts : CtorArg1 → PluginOpts → PluginOpts
  | .strArg s, opts => { opts with proxyUrl := JSVal.str s }
  | .objArg o, _ => o

/-- The per-page configuration stored in `proxyCfgMap` by `page.useProxy`
(lines 167-171): the object `{ ...opts, proxy: proxyUrl }`. The trailing
`proxy:` entry always wins over any same-named key of `opts`, and the spread
of the previous map entry is commented out in the source, so the stored
object never merges with a prior configuration. -/
structure PageCfg where
  proxy : JSVal
  onlyNavigation : Option Bool
  interceptResolutionPriority : Option Int
deriving DecidableEq

/-- The view of the intercepted request read by `onRequest`. The two
`has...` flags model host capabilities that are present or absent depending
on the host library version (`isInterceptResolutionHandled` on lines
105-107, `continueRequestOverrides` on lines 152-154). -/
structure RequestView where
  hasIsInterceptResolutionHandled : Bool
  interceptResolutionHandled : Bool
  isNavigationRequest : Bool
  hasContinueRequestOverrides : Bool
  continueRequestOverrides : String
deriving DecidableEq

/-- The triple `getProxiedResponse` resolves with on success. -/
structure RespondWith where
  status : Int
  headers : List (String × String)
  body : String
deriving DecidableEq

/-- A terminal action issued on the request. `continueReq none` models a
bare `request.continue()` with no arguments; `continueReq (some (ov, pr))`
models `request.continue(ov, pr)` with the host overrides and a priority. -/
inductive Action where
  | continueReq (args : Option (String × Option Int))
  | respond (payload : RespondWith) (priority : Option Int)
  | abort (reason : String) (priority : Option Int)
deriving DecidableEq

/-- The observable outcome of one `onRequest` invocation: the terminal
action issued (if any), how many times `getProxiedResponse` was invoked,
and any exception escaping `onRequest` (rejecting its promise). -/
structure OnRequestResult where
  action : Option Action
  dispatchCount : Nat
  thrown : Option String
deriving DecidableEq

/-- Lines 152-154: the argument list of the final `request.continue(...)`
call — the host overrides with the resolved priority when the
`continueRequestOverrides` capability exists, else no arguments. -/
def continueArgs (r : RequestView) (pr : Option Int) : Option (String × Option Int) :=
  if r.hasContinueRequestOverrides then some (r.continueRequestOverrides, pr) else none

/-- The fallback terminal outcome of `onRequest` (lines 152-156): issue
`continue` with `continueArgs`; the dispatcher is not invoked. -/
def continueOutcome (r : RequestView) (pr : Option Int) : OnRequestResult :=
  { action := some (Action.continueReq (continueArgs r pr)), dispatchCount := 0, thrown := none }

/-- The proxy-path outcome of `onRequest` (lines 141-148): await
`getProxiedResponse`; on success issue `respond(respondWith, priority)`, on
rejection catch the error and issue `abort("failed", priority)`. The
dispatcher is invoked exactly once either way and no error escapes. -/
def proxyOutcome (d : Except String RespondWith) (pr : Option Int) : OnRequestResult :=
  match d with
  | .ok payload => { action := some (Action.respond payload pr), dispatchCount := 1, thrown := none }
  | .error _ => { action := some (Action.abort "failed" pr), dispatchCount := 1, thrown := none }

/-- Lines 104-156 of `onRequest`: the decision logic surrounding the
`debug` call on lines 109-113, with that call modeled as the no-op log it
is meant to be — see `onRequest` below for the fault that in fact precedes
this logic in the source as written. `alreadyHandled` is the result of the
optional `isInterceptResolutionHandled` capability, defaulting to `true`
when absent (lines 105-107); when it holds, the handler returns without any
action (lines 115-117). Otherwise the `do ... while (false)` block breaks
to the `continue` fallback when the page opted out (line 129), when the
`||`-resolved url is falsy (line 134), or when `onlyNavigation` gates a
non-navigation request (line 137); else the proxy path runs. The
`dispatch` argument is the oracle outcome of `getProxiedResponse`. -/
def onRequestDecide (g : PluginOpts) (cfg : PageCfg) (r : RequestView)
    (dispatch : Except String RespondWith) : OnRequestResult :=
  let alreadyHandled := if r.hasIsInterceptResolutionHandled then r.interceptResolutionHandled else true
  if alreadyHandled then { action := none, dispatchCount := 0, thrown := none }
  else
    let interceptResolutionPriority := jsOrNum cfg.interceptResolutionPriority g.interceptResolutionPriority
    let onlyNavigation := jsOrBool cfg.onlyNavigation g.onlyNavigation
    if !cfg.proxy.truthy && cfg.proxy != JSVal.undef then
      continueOutcome r interceptResolutionPriority
    else
      let proxyUrl := JSVal.jsOr cfg.proxy g.proxyUrl
      if !proxyUrl.truthy then
        continueOutcome r interceptResolutionPriority
      else if truthyBool onlyNavigation && !r.isNavigationRequest then
        continueOutcome r interceptResolutionPriority
      else
        proxyOutcome dispatch interceptResolutionPriority

/-- Lines 103-157 of `onRequest` as written: the argument object of
`this.debug("onRequest", { type, shouldBlock, alreadyHandled })` on lines
109-113 reads the identifiers `type` and `shouldBlock`, which are bound
nowhere in the file, so every invocation raises
`ReferenceError: type is not defined` before the `alreadyHandled` check on
line 115. No terminal action is issued, the dispatcher is never reached,
and the rejection escapes `onRequest`. The decision logic this fault makes
unreachable is factored out as `onRequestDecide` above. -/
def onRequest (_g : PluginOpts) (_cfg : PageCfg) (_r : RequestView)
    (_dispatch : Except String RespondWith) : OnRequestResult :=
  { action := none, dispatchCount := 0, thrown := some "ReferenceError: type is not defined" }

/-- The condition under which `onRequestDecide` reaches the proxy path:
the page has not opted out (the negation of the line 129 break) and the
`||`-resolved url of lines 133-134 is truthy. -/
def proxyApplies (cfg : PageCfg) (g : PluginOpts) : Bool :=
  (cfg.proxy.truthy || cfg.proxy == JSVal.undef) && (JSVal.jsOr cfg.proxy g.proxyUrl).truthy

/-- The host-visible page state touched by `page.useProxy` (lines 166-177):
the `proxyCfgMap` entry for the page, the number of attached request
listeners, membership in `reqHdlRegSet`, and whether request interception
has been enabled. -/
structure PageState where
  cfg : Option PageCfg
  handlers : Nat
  registered : Bool
  interceptionEnabled : Bool
deriving DecidableEq

/-- A page before any `useProxy` call. -/
def freshPageState : PageState :=
  { cfg := none, handlers := 0, registered := false, interceptionEnabled := false }

/-- The options argument of `page.useProxy`. -/
structure UseProxyOpts where
  onlyNavigation : Option Bool
  interceptResolutionPriority : Option Int
deriving DecidableEq

/-- Lines 167-171: the object stored in `proxyCfgMap` — the spread of
`opts` with `proxy` set to the new url, fully replacing any prior entry. -/
def mkPageCfg (proxyUrl : JSVal) (opts : UseProxyOpts) : PageCfg :=
  { proxy := proxyUrl,
    onlyNavigation := opts.onlyNavigation,
    interceptResolutionPriority := opts.interceptResolutionPriority }

/-- One `page.useProxy(proxyUrl, opts)` call (lines 166-177): store the new
configuration, attach the request handler only if the page is not yet in
`reqHdlRegSet`, mark it registered, and enable request interception. -/
def useProxyState (st : PageState) (proxyUrl : JSVal) (opts : UseProxyOpts) : PageState :=
  { cfg := some (mkPageCfg proxyUrl opts),
    handlers := if st.registered then st.handlers else st.handlers + 1,
    registered := true,
    interceptionEnabled := true }

/-- `page.useProxy` with an explicit error channel for configuration-time
rejection: the body on lines 166-177 performs no validation of `proxyUrl`
at all and can raise no ConfigError, so every call succeeds with
`useProxyState`. -/
def useProxy (st : PageState) (proxyUrl : JSVal) (opts : UseProxyOpts) :
    Except String PageState :=
  Except.ok (useProxyState st proxyUrl opts)

/-- A sequence of `useProxy` calls applied to one page. -/
def useProxyRun (st : PageState) (calls : List (JSVal × UseProxyOpts)) : PageState :=
  calls.foldl (fun s c => useProxyState s c.1 c.2) st

/-- C1: the claim states that every intercepted request delivered to
`onRequest` receives exactly one terminal action and that no exception path
exits without one. In the source as written, every invocation raises a
ReferenceError at the `debug` call (stray identifiers `type` and
`shouldBlock`) and exits with zero terminal actions: here a navigation
request with cooperative interception unresolved, on a page configured with
a proxy, yields no action, no dispatcher call, and an escaping exception. -/
theorem onRequest_raises_before_any_action :
    onRequest
      { proxyUrl := JSVal.undef, onlyNavigation := none, interceptResolutionPriority := none }
      { proxy := JSVal.str "http://127.0.0.1:8080", onlyNavigation := none,
        interceptResolutionPriority := none }
      { hasIsInterceptResolutionHandled := true, interceptResolutionHandled := false,
        isNavigationRequest := true, hasContinueRequestOverrides := false,
        continueRequestOverrides := "" }
      (Except.ok { status := 200, headers := [], body := "" }) =
    { action := none, dispatchCount := 0,
      thrown := some "ReferenceError: type is not defined" } := rfl

/-- C2 counterexample: on a request object that does not expose the
`isInterceptResolutionHandled` capability, the decision logic treats the
request as already handled and returns with no action and no dispatcher
call — it does not proceed to decide bypass/proxy/continue, even though the
page has a proxy configured. -/
theorem capability_absent_no_action :
    onRequestDecide
      { proxyUrl := JSVal.undef, onlyNavigation := none, interceptResolutionPriority := none }
      { proxy := JSVal.str "http://127.0.0.1:8080", onlyNavigation := none,
        interceptResolutionPriority := none }
      { hasIsInterceptResolutionHandled := false, interceptResolutionHandled := false,
        isNavigationRequest := true, hasContinueRequestOverrides := false,
        continueRequestOverrides := "" }
      (Except.ok { status := 200, headers := [], body := "" }) =
    { action := none, dispatchCount := 0, thrown := none } := rfl

/-- C2 amended: the decision logic exits without any terminal action
exactly when the `isInterceptResolutionHandled` capability is absent (then
the request is treated as already handled) or when it is present and
reports the request as already resolved; only a present capability
reporting the request as unresolved makes the handler proceed and issue an
action. -/
theorem no_action_iff_handled_or_capability_absent (g : PluginOpts) (cfg : PageCfg)
    (r : RequestView) (d : Except String RespondWith) :
    (onRequestDecide g cfg r d).action = none ↔
      (r.hasIsInterceptResolutionHandled = false ∨ r.interceptResolutionHandled = true) := by
  unfold onRequestDecide
  cases hh : r.hasIsInterceptResolutionHandled <;>
    cases hr : r.interceptResolutionHandled <;>
      cases d <;>
        simp [hh, hr, continueOutcome, proxyOutcome] <;>
          (repeat' split) <;>
            simp [continueOutcome, proxyOutcome]

/-- Witness for the amended C2 at a concrete request lacking the
capability: no action is issued. -/
theorem no_action_iff_handled_witness :
    (onRequestDecide
      { proxyUrl := JSVal.undef, onlyNavigation := none, interceptResolutionPriority := none }
      { proxy := JSVal.str "http://127.0.0.1:8080", onlyNavigation := none,
        interceptResolutionPriority := none }
      { hasIsInterceptResolutionHandled := false, interceptResolutionHandled := false,
        isNavigationRequest := true, hasContinueRequestOverrides := false,
        continueRequestOverrides := "" }
      (Except.ok { status := 200, headers := [], body := "" })).action = none :=
  (no_action_iff_handled_or_capability_absent _ _ _ _).mpr (Or.inl rfl)

/-- C9 counterexample: `useProxy` called with a proxy url carrying no
scheme at all succeeds at configuration time — it raises no ConfigError and
stores the malformed url verbatim, attaching the handler and enabling
interception. -/
theorem malformed_url_accepted_at_config :
    useProxy freshPageState (JSVal.str "no-scheme-at-all")
      { onlyNavigation := none, interceptResolutionPriority := none } =
    Except.ok
      { cfg := some { proxy := JSVal.str "no-scheme-at-all", onlyNavigation := none,
                      interceptResolutionPriority := none },
        handlers := 1, registered := true, interceptionEnabled := true } := rfl

/-- C9 amended: configuration time performs no proxy-url validation at all.
For every string — malformed scheme or not — `useProxy` succeeds without a
ConfigError and stores the string verbatim in the page configuration, and
the plugin constructor likewise records it verbatim as the global
`proxyUrl`. Any scheme failure can only surface later, at dispatch time. -/
theorem config_time_accepts_any_string (st : PageState) (s : String) (o : UseProxyOpts)
    (g : PluginOpts) :
    useProxy st (JSVal.str s) o = Except.ok (useProxyState st (JSVal.str s) o) ∧
    (useProxyState st (JSVal.str s) o).cfg = some (mkPageCfg (JSVal.str s) o) ∧
    (mkPluginOpts (CtorArg1.strArg s) g).proxyUrl = JSVal.str s :=
  ⟨rfl, rfl, rfl⟩

/-- C10: the constructor accepts a string plus an options object, or a
single object as first argument. The string form equals the object form in
which the object carries the same `proxyUrl` field, for any second
argument; and when the first argument is an object, the second argument is
ignored entirely. -/
theorem ctor_object_form_equals_string_form (s : String) (o o2 o3 : PluginOpts) :
    mkPluginOpts (CtorArg1.strArg s) o =
      mkPluginOpts (CtorArg1.objArg { o with proxyUrl := JSVal.str s }) o2 ∧
    mkPluginOpts (CtorArg1.objArg o) o2 = mkPluginOpts (CtorArg1.objArg o) o3 :=
  ⟨rfl, rfl⟩

/-- C3 counterexample: the page explicitly sets `onlyNavigation` to false
and `interceptResolutionPriority` to 0, the global defaults are true and 7.
Under nullish resolution the page-level values would be used, so this
non-navigation request would take the proxy path and any issued action
would carry priority 0. Instead the global values win: the navigation gate
fires and the request continues with priority 7, the dispatcher untouched —
`jsOrNum` and `jsOrBool` are truthiness fallbacks, not nullish ones. -/
theorem pagelevel_false_and_zero_overridden :
    onRequestDecide
      { proxyUrl := JSVal.undef, onlyNavigation := some true,
        interceptResolutionPriority := some 7 }
      { proxy := JSVal.str "http://127.0.0.1:8080", onlyNavigation := some false,
        interceptResolutionPriority := some 0 }
      { hasIsInterceptResolutionHandled := true, interceptResolutionHandled := false,
        isNavigationRequest := false, hasContinueRequestOverrides := true,
        continueRequestOverrides := "ov" }
      (Except.ok { status := 200, headers := [], body := "" }) =
    { action := some (Action.continueReq (some ("ov", some 7))), dispatchCount := 0,
      thrown := none } ∧
    jsOrNum (some 0) (some 7) = some 7 ∧
    jsOrBool (some false) (some true) = some true :=
  ⟨rfl, rfl, rfl⟩

/-- C3 amended: effective settings are resolved with truthiness (`||`)
fallback, not nullish fallback: a page-level `onlyNavigation` of false or a
page-level priority of 0 is falsy and so the global default is consulted.
Observably: with page-level false/0 and a truthy global `onlyNavigation`,
a non-navigation request on a proxied page takes the continue path carrying
the global priority. -/
theorem effective_settings_truthy_fallback (g : PluginOpts) (cfg : PageCfg)
    (r : RequestView) (d : Except String RespondWith)
    (h1 : r.hasIsInterceptResolutionHandled = true)
    (h2 : r.interceptResolutionHandled = false)
    (h3 : cfg.onlyNavigation = some false)
    (h4 : truthyBool g.onlyNavigation = true)
    (h5 : cfg.interceptResolutionPriority = some 0)
    (h6 : r.isNavigationRequest = false)
    (h7 : proxyApplies cfg g = true) :
    onRequestDecide g cfg r d = continueOutcome r g.interceptResolutionPriority := by
  have h4s : g.onlyNavigation = some true := by
    cases hgn : g.onlyNavigation with
    | none => rw [hgn] at h4; exact absurd h4 (by simp [truthyBool])
    | some b => rw [hgn] at h4; simp [truthyBool] at h4; rw [h4]
  simp only [proxyApplies, Bool.and_eq_true, Bool.or_eq_true, beq_iff_eq] at h7
  obtain ⟨hp1, hp2⟩ := h7
  unfold onRequestDecide
  rcases hp1 with hA | hU
  · simp [h1, h2, h3, h4s, h5, h6, hA, jsOrBool, jsOrNum, truthyBool, truthyNum, JSVal.jsOr]
  · rw [hU] at hp2
    cases hgp : g.proxyUrl with
    | undef => rw [hgp] at hp2; simp [JSVal.jsOr, JSVal.truthy] at hp2
    | null => rw [hgp] at hp2; simp [JSVal.jsOr, JSVal.truthy] at hp2
    | str s =>
      rw [hgp] at hp2
      simp [JSVal.jsOr, JSVal.truthy] at hp2
      simp [h1, h2, h3, h4s, h5, h6, hU, hgp, hp2, jsOrBool, jsOrNum, truthyBool, truthyNum,
        JSVal.jsOr, JSVal.truthy]

/-- Witness for the amended C3: page sets onlyNavigation false and priority
0, globals are true and 7; the image request continues carrying priority 7. -/
theorem effective_settings_truthy_fallback_witness :
    onRequestDecide
      { proxyUrl := JSVal.undef, onlyNavigation := some true,
        interceptResolutionPriority := some 7 }
      { proxy := JSVal.str "socks5://127.0.0.1:1080", onlyNavigation := some false,
        interceptResolutionPriority := some 0 }
      { hasIsInterceptResolutionHandled := true, interceptResolutionHandled := false,
        isNavigationRequest := false, hasContinueRequestOverrides := false,
        continueRequestOverrides := "" }
      (Except.ok { status := 200, headers := [], body := "" }) =
    continueOutcome
      { hasIsInterceptResolutionHandled := true, interceptResolutionHandled := false,
        isNavigationRequest := false, hasContinueRequestOverrides := false,
        continueRequestOverrides := "" }
      (some 7) :=
  effective_settings_truthy_fallback _ _ _ _ rfl rfl rfl rfl rfl rfl (by decide)

/-- C4: a page whose configuration explicitly set `proxy` to a falsy value
other than `undefined` (null or the empty string, as `useProxy(null)`
stores) takes the continue path with the resolved priority and never calls
the dispatcher, whatever the global configuration — including a configured
global default proxy — and whatever the dispatcher would have returned. -/
theorem optout_continues_and_skips_dispatcher (g : PluginOpts) (cfg : PageCfg)
    (r : RequestView) (d : Except String RespondWith)
    (h1 : r.hasIsInterceptResolutionHandled = true)
    (h2 : r.interceptResolutionHandled = false)
    (h3 : cfg.proxy.truthy = false)
    (h4 : cfg.proxy ≠ JSVal.undef) :
    onRequestDecide g cfg r d =
      continueOutcome r (jsOrNum cfg.interceptResolutionPriority g.interceptResolutionPriority) ∧
    (onRequestDecide g cfg r d).dispatchCount = 0 := by
  have h : onRequestDecide g cfg r d =
      continueOutcome r (jsOrNum cfg.interceptResolutionPriority g.interceptResolutionPriority) := by
    unfold onRequestDecide
    simp [h1, h2, h3, h4]
  exact ⟨h, by simp [h, continueOutcome]⟩

/-- Witness for C4: a page opted out with `useProxy(null)` while a global
default proxy is configured; the request continues and the dispatcher is
never invoked. -/
theorem optout_witness :
    onRequestDecide
      { proxyUrl := JSVal.str "http://10.0.0.1:3128", onlyNavigation := none,
        interceptResolutionPriority := none }
      { proxy := JSVal.null, onlyNavigation := none, interceptResolutionPriority := none }
      { hasIsInterceptResolutionHandled := true, interceptResolutionHandled := false,
        isNavigationRequest := true, hasContinueRequestOverrides := false,
        continueRequestOverrides := "" }
      (Except.ok { status := 200, headers := [], body := "" }) =
      continueOutcome
        { hasIsInterceptResolutionHandled := true, interceptResolutionHandled := false,
          isNavigationRequest := true, hasContinueRequestOverrides := false,
          continueRequestOverrides := "" }
        (jsOrNum none none) ∧
    (onRequestDecide
      { proxyUrl := JSVal.str "http://10.0.0.1:3128", onlyNavigation := none,
        interceptResolutionPriority := none }
      { proxy := JSVal.null, onlyNavigation := none, interceptResolutionPriority := none }
      { hasIsInterceptResolutionHandled := true, interceptResolutionHandled := false,
        isNavigationRequest := true, hasContinueRequestOverrides := false,
        continueRequestOverrides := "" }
      (Except.ok { status := 200, headers := [], body := "" })).dispatchCount = 0 :=
  optout_continues_and_skips_dispatcher _ _ _ _ rfl rfl rfl (by decide)

/-- C5 counterexample: a page opted out with `useProxy(null)` but with
`onlyNavigation` set to true, while a global proxy is configured. The
effective (resolved) proxy url is the truthy global one, the request is a
navigation request, yet the opt-out check fires first: the request takes
the continue path and the dispatcher is never called, falsifying the claim
that every navigation request takes the proxy path when an effective proxy
url is set. -/
theorem navigation_with_effective_proxy_can_continue :
    (JSVal.jsOr JSVal.null (JSVal.str "http://127.0.0.1:3128")).truthy = true ∧
    onRequestDecide
      { proxyUrl := JSVal.str "http://127.0.0.1:3128", onlyNavigation := none,
        interceptResolutionPriority := none }
      { proxy := JSVal.null, onlyNavigation := some true, interceptResolutionPriority := none }
      { hasIsInterceptResolutionHandled := true, interceptResolutionHandled := false,
        isNavigationRequest := true, hasContinueRequestOverrides := false,
        continueRequestOverrides := "" }
      (Except.ok { status := 200, headers := [], body := "" }) =
    { action := some (Action.continueReq none), dispatchCount := 0, thrown := none } :=
  ⟨rfl, rfl⟩

/-- C5 amended: when the effective `onlyNavigation` flag is true, a
non-navigation request always takes the continue path with no dispatcher
call; a navigation request takes the proxy path exactly when the page has
not opted out and the `||`-resolved proxy url is truthy (`proxyApplies`) —
an opted-out page continues even on navigation requests with a global proxy
configured. -/
theorem onlyNavigation_gate (g : PluginOpts) (cfg : PageCfg)
    (r : RequestView) (d : Except String RespondWith)
    (h1 : r.hasIsInterceptResolutionHandled = true)
    (h2 : r.interceptResolutionHandled = false)
    (h3 : truthyBool (jsOrBool cfg.onlyNavigation g.onlyNavigation) = true) :
    onRequestDecide g cfg r d =
      (if r.isNavigationRequest && proxyApplies cfg g then
        proxyOutcome d (jsOrNum cfg.interceptResolutionPriority g.interceptResolutionPriority)
      else
        continueOutcome r (jsOrNum cfg.interceptResolutionPriority g.interceptResolutionPriority)) := by
  unfold onRequestDecide proxyApplies
  cases hx : cfg.proxy with
  | undef =>
    cases hgp : g.proxyUrl with
    | undef => simp [h1, h2, h3, JSVal.jsOr, JSVal.truthy]
    | null => simp [h1, h2, h3, JSVal.jsOr, JSVal.truthy]
    | str s =>
      cases hs : s.isEmpty <;>
        cases hn : r.isNavigationRequest <;>
          simp [h1, h2, h3, JSVal.jsOr, JSVal.truthy, hs, hn]
  | null =>
    simp [h1, h2, h3, JSVal.jsOr, JSVal.truthy]
  | str s =>
    cases hs : s.isEmpty <;>
      cases hn : r.isNavigationRequest <;>
        simp [h1, h2, h3, JSVal.jsOr, JSVal.truthy, hs, hn]

/-- Witness for the amended C5: effective `onlyNavigation` true via the
global default; a navigation request on a page with a truthy page proxy is
dispatched and, the dispatcher succeeding, answered with `respond`. -/
theorem onlyNavigation_gate_witness :
    onRequestDecide
      { proxyUrl := JSVal.undef, onlyNavigation := some true,
        interceptResolutionPriority := none }
      { proxy := JSVal.str "http://127.0.0.1:8080", onlyNavigation := none,
        interceptResolutionPriority := none }
      { hasIsInterceptResolutionHandled := true, interceptResolutionHandled := false,
        isNavigationRequest := true, hasContinueRequestOverrides := false,
        continueRequestOverrides := "" }
      (Except.ok { status := 200, headers := [("x-test", "1")], body := "hello" }) =
      (if true && proxyApplies
          { proxy := JSVal.str "http://127.0.0.1:8080", onlyNavigation := none,
            interceptResolutionPriority := none }
          { proxyUrl := JSVal.undef, onlyNavigation := some true,
            interceptResolutionPriority := none } then
        proxyOutcome
          (Except.ok { status := 200, headers := [("x-test", "1")], body := "hello" })
          (jsOrNum none none)
      else
        continueOutcome
          { hasIsInterceptResolutionHandled := true, interceptResolutionHandled := false,
            isNavigationRequest := true, hasContinueRequestOverrides := false,
            continueRequestOverrides := "" }
          (jsOrNum none none)) :=
  onlyNavigation_gate _ _ _ _ rfl rfl rfl

/-- C6: on a page whose stored configuration left `proxy` as `undefined`
(for example `useProxy()` with no arguments) while the global `proxyUrl` is
also unset, every request — once the handler proceeds — takes the continue
path and the dispatcher is never called. -/
theorem no_proxy_configured_continues (g : PluginOpts) (cfg : PageCfg)
    (r : RequestView) (d : Except String RespondWith)
    (h1 : r.hasIsInterceptResolutionHandled = true)
    (h2 : r.interceptResolutionHandled = false)
    (h3 : cfg.proxy = JSVal.undef)
    (h4 : g.proxyUrl = JSVal.undef) :
    onRequestDecide g cfg r d =
      continueOutcome r (jsOrNum cfg.interceptResolutionPriority g.interceptResolutionPriority) ∧
    (onRequestDecide g cfg r d).dispatchCount = 0 := by
  have h : onRequestDecide g cfg r d =
      continueOutcome r (jsOrNum cfg.interceptResolutionPriority g.interceptResolutionPriority) := by
    unfold onRequestDecide
    simp [h1, h2, h3, h4, JSVal.jsOr, JSVal.truthy]
  exact ⟨h, by simp [h, continueOutcome]⟩

/-- Witness for C6: no proxy anywhere; a navigation request continues and
the dispatcher stays untouched. -/
theorem no_proxy_configured_witness :
    onRequestDecide
      { proxyUrl := JSVal.undef, onlyNavigation := none, interceptResolutionPriority := none }
      { proxy := JSVal.undef, onlyNavigation := none, interceptResolutionPriority := none }
      { hasIsInterceptResolutionHandled := true, interceptResolutionHandled := false,
        isNavigationRequest := true, hasContinueRequestOverrides := true,
        continueRequestOverrides := "ov" }
      (Except.ok { status := 200, headers := [], body := "" }) =
      continueOutcome
        { hasIsInterceptResolutionHandled := true, interceptResolutionHandled := false,
          isNavigationRequest := true, hasContinueRequestOverrides := true,
          continueRequestOverrides := "ov" }
        (jsOrNum none none) ∧
    (onRequestDecide
      { proxyUrl := JSVal.undef, onlyNavigation := none, interceptResolutionPriority := none }
      { proxy := JSVal.undef, onlyNavigation := none, interceptResolutionPriority := none }
      { hasIsInterceptResolutionHandled := true, interceptResolutionHandled := false,
        isNavigationRequest := true, hasContinueRequestOverrides := true,
        continueRequestOverrides := "ov" }
      (Except.ok { status := 200, headers := [], body := "" })).dispatchCount = 0 :=
  no_proxy_configured_continues _ _ _ _ rfl rfl rfl rfl

/-- C7: on the proxy path (page not opted out, resolved proxy url truthy,
navigation gate passed), a dispatcher rejection makes the coordinator
abort with reason "failed" and the resolved priority: the dispatcher is
called exactly once, no continue is issued, and no error escapes. -/
theorem dispatcher_failure_aborts (g : PluginOpts) (cfg : PageCfg)
    (r : RequestView) (e : String)
    (h1 : r.hasIsInterceptResolutionHandled = true)
    (h2 : r.interceptResolutionHandled = false)
    (h3 : proxyApplies cfg g = true)
    (h4 : (truthyBool (jsOrBool cfg.onlyNavigation g.onlyNavigation) &&
            !r.isNavigationRequest) = false) :
    onRequestDecide g cfg r (Except.error e) =
      { action := some (Action.abort "failed"
          (jsOrNum cfg.interceptResolutionPriority g.interceptResolutionPriority)),
        dispatchCount := 1, thrown := none } := by
  have hp : (cfg.proxy.truthy || cfg.proxy == JSVal.undef) = true ∧
      (JSVal.jsOr cfg.proxy g.proxyUrl).truthy = true := by
    simpa [proxyApplies] using h3
  unfold onRequestDecide
  simp only [h1, h2, h4, hp.2, Bool.false_eq_true, if_false, proxyOutcome]
  rcases Bool.or_eq_true_iff.mp hp.1 with h | h
  · simp [h, h4, hp.2, proxyOutcome]
  · simp [beq_iff_eq.mp h, h4, hp.2, proxyOutcome, JSVal.truthy]

/-- Witness for C7: connection refused from the dispatcher on a proxied
navigation request; the coordinator aborts with "failed" and priority 3,
dispatching exactly once and throwing nothing. -/
theorem dispatcher_failure_aborts_witness :
    onRequestDecide
      { proxyUrl := JSVal.undef, onlyNavigation := none, interceptResolutionPriority := none }
      { proxy := JSVal.str "http://127.0.0.1:9999", onlyNavigation := none,
        interceptResolutionPriority := some 3 }
      { hasIsInterceptResolutionHandled := true, interceptResolutionHandled := false,
        isNavigationRequest := true, hasContinueRequestOverrides := false,
        continueRequestOverrides := "" }
      (Except.error "ECONNREFUSED") =
    { action := some (Action.abort "failed" (jsOrNum (some 3) none)),
      dispatchCount := 1, thrown := none } :=
  dispatcher_failure_aborts _ _ _ "ECONNREFUSED" rfl rfl (by decide) rfl

/-- Once a page is in `reqHdlRegSet`, further `useProxy` calls leave the
listener count unchanged and keep it registered. -/
theorem useProxyRun_of_registered (calls : List (JSVal × UseProxyOpts)) :
    ∀ st : PageState, st.registered = true →
      (useProxyRun st calls).handlers = st.handlers ∧
      (useProxyRun st calls).registered = true := by
  induction calls with
  | nil => intro st h; exact ⟨rfl, h⟩
  | cons c cs ih =>
    intro st h
    have hstep : useProxyRun st (c :: cs) = useProxyRun (useProxyState st c.1 c.2) cs := rfl
    have h1 : (useProxyState st c.1 c.2).registered = true := rfl
    have h2 : (useProxyState st c.1 c.2).handlers = st.handlers := by
      simp [useProxyState, h]
    rw [hstep]
    rcases ih (useProxyState st c.1 c.2) h1 with ⟨ha, hb⟩
    exact ⟨by rw [ha, h2], hb⟩

/-- C8: starting from a fresh page, any nonempty sequence of `useProxy`
calls leaves exactly one attached request listener (attached by the first
call only), and the stored configuration is exactly the one built from the
last call — the proxy url and options of every earlier call are fully
replaced, never merged. -/
theorem useProxy_attaches_once_replaces_config (calls : List (JSVal × UseProxyOpts))
    (c : JSVal × UseProxyOpts) :
    (useProxyRun freshPageState (calls ++ [c])).handlers = 1 ∧
    (useProxyRun freshPageState (calls ++ [c])).cfg = some (mkPageCfg c.1 c.2) ∧
    (useProxyRun freshPageState (calls ++ [c])).interceptionEnabled = true := by
  have hlast : ∀ (st : PageState) (xs : List (JSVal × UseProxyOpts)),
      useProxyRun st (xs ++ [c]) = useProxyState (useProxyRun st xs) c.1 c.2 := by
    intro st xs
    simp [useProxyRun, List.foldl_append]
  cases calls with
  | nil => exact ⟨rfl, rfl, rfl⟩
  | cons c0 cs =>
    have hreg : (useProxyState freshPageState c0.1 c0.2).registered = true := rfl
    have hone : (useProxyState freshPageState c0.1 c0.2).handlers = 1 := rfl
    have hrun := useProxyRun_of_registered (cs ++ [c]) (useProxyState freshPageState c0.1 c0.2) hreg
    have hstep : useProxyRun freshPageState ((c0 :: cs) ++ [c]) =
        useProxyRun (useProxyState freshPageState c0.1 c0.2) (cs ++ [c]) := rfl
    refine ⟨by rw [hstep, hrun.1, hone], ?_, ?_⟩
    · rw [hlast freshPageState (c0 :: cs)]; rfl
    · rw [hlast freshPageState (c0 :: cs)]; rfl

end PageProxy
